import Mathlib

/-!
# Thor worker registration handshake (thorlcr/slave/thslavemain.cpp)

A shallow embedding of `replyError`, `RegisterSelf`, `UnregisterSelf` and
`ControlHandler` together with the file-scope variables they read and write.

* The file-scope variables (`masterNode`, `slfEp`, `mySlaveNum`, `cmdArgs`,
  `isRegistered`, `jobListenerStopped`, `globals`, the two message tags) are the
  fields of `State`; every function takes the state and returns the new one.
* The message-passing layer is outside the file.  What it answers to each
  call (a send or receive returning true, returning false, or throwing) is an
  input of the embedded function; every message handed to it is appended to
  `State.sent`, oldest first, together with what the layer answered.
* Build-time constants and the `_DEBUG` switch are the fields of `BuildConfig`.
* `UnregisterSelf` and `ControlHandler` are also given in two parts, before and after the
  blocking deregistration send, so that schedules in which invocations overlap can be run
  (`Machine`, `Step`, `runSchedule`).
* Log output is not modelled.
-/

namespace ThorSlave

/-! ## Data model -/

/-- Network address (textual host) and port, as in jlib's `SocketEndpoint`. -/
structure SocketEndpoint where
  ip : String
  port : Nat
deriving DecidableEq, Repr

/-- A node of the message-passing layer; it is identified by its endpoint. -/
structure INode where
  endpoint : SocketEndpoint
deriving DecidableEq, Repr

/-- The value `(unsigned)-1` used by jlib as "no such index". -/
def NotFound : Nat := 4294967295

/-- The value `(rank_t)-1` returned by `IGroup::rank` for a node that is not a member. -/
def RANK_NULL : Nat := 4294967295

/-- Modelled from the spec: `IGroup` (mpbase.hpp) is declared outside the source file.
The spec calls the process group an ordered set of peer endpoints, so the members are
pairwise distinct, and ranks are values of the 32-bit `rank_t`, so there are fewer
than `RANK_NULL` of them. -/
structure IGroup where
  nodes : List INode
  nodup : nodes.Nodup
  small : nodes.length < RANK_NULL

/-- Modelled from the spec: `IGroup::rank` is declared outside the source file; it is the
0-based position of the node within the group, or `RANK_NULL` when the node is absent. -/
def IGroup.rank (g : IGroup) (node : INode) : Nat :=
  if node ∈ g.nodes then g.nodes.indexOf node else RANK_NULL

/-- Modelled from the spec: `IPropertyTree` (jlib) is outside the source file.  The tree is
represented by the attributes the handshake reads or writes, each absent or holding its
value; integer attributes hold the number their text denotes. -/
structure PTree where
  slavenum : Option Int := none
  holdSlave : Option Int := none
  channelsPerSlave : Option Int := none
  localThorPortInc : Option Int := none
  slaveport : Option Int := none
  masterBuildTag : Option String := none
  forceNumStrands : Option Int := none
  strandBlockSize : Option Int := none
deriving DecidableEq, Repr

/-- Conversion of an integer to the 32-bit `int` that `getPropInt` returns. -/
def toInt32 (x : Int) : Int := (x + 2147483648) % 4294967296 - 2147483648

/-- Conversion of an `int` to `unsigned` (assignment to an `unsigned` variable). -/
def toUnsigned (x : Int) : Nat := (x % 4294967296).toNat

/-- Modelled from the spec: `IPropertyTree::getPropInt` is outside the source file; the call
`tree->getPropInt(attr, dft)` gives the attribute's value as an `int`, or the default when the
attribute is absent. -/
def getPropInt (attr : Option Int) (dft : Int) : Int :=
  match attr with
  | some v => toInt32 v
  | none => dft

/-- Modelled from the spec: `loadArgsIntoConfiguration` is outside the source file; options
given on the local command line take precedence over the configuration they are loaded into. -/
def loadArgsIntoConfiguration (config args : PTree) : PTree :=
  { slavenum := args.slavenum.orElse fun _ => config.slavenum
    holdSlave := args.holdSlave.orElse fun _ => config.holdSlave
    channelsPerSlave := args.channelsPerSlave.orElse fun _ => config.channelsPerSlave
    localThorPortInc := args.localThorPortInc.orElse fun _ => config.localThorPortInc
    slaveport := args.slaveport.orElse fun _ => config.slaveport
    masterBuildTag := args.masterBuildTag.orElse fun _ => config.masterBuildTag
    forceNumStrands := args.forceNumStrands.orElse fun _ => config.forceNumStrands
    strandBlockSize := args.strandBlockSize.orElse fun _ => config.strandBlockSize }

/-- An `IException`: error code and message text. -/
structure IException where
  code : Nat
  text : String
deriving DecidableEq, Repr

/-- Registry opcodes (thormisc.hpp); only `rc_deregister` is used here. -/
inductive RegistryCode where
  | rc_register
  | rc_deregister
deriving DecidableEq, Repr

/-- One item appended to a `CMessageBuffer`. -/
inductive Field where
  | unsigned (n : Nat)
  | opcode (c : RegistryCode)
  | exception (e : Option IException)
deriving DecidableEq, Repr

/-- A message buffer: the items appended to it, in order. -/
abbrev CMessageBuffer := List Field

/-- Message tags; the handshake only sends on `MPTAG_THORREGISTRATION`. -/
inductive mptag_t where
  | MPTAG_THORREGISTRATION
  | other (n : Nat)
deriving DecidableEq, Repr

/-- Destination of a send: a node through `queryWorldCommunicator()`, where the node pointer
may be null, or a rank of the cluster group through `queryNodeComm()`. -/
inductive Target where
  | worldNode (n : Option INode)
  | groupRank (r : Nat)
deriving DecidableEq, Repr

/-- What a call into the message-passing layer answered: it returned true, returned false,
or threw an `IException`. -/
inductive Outcome where
  | ok
  | failed
  | threw
deriving DecidableEq, Repr

/-- A message handed to the message-passing layer, with the answer of the layer. -/
structure SendEvent where
  dest : Target
  tag : mptag_t
  body : CMessageBuffer
  timeout : Option Nat
  result : Outcome
deriving DecidableEq, Repr

/-- The registration reply of the coordinator, in the order the worker reads it. -/
structure RegistrationReply where
  vmajor : Nat
  vminor : Nat
  processGroup : IGroup
  globals : PTree
  masterSlaveMpTag : Nat
  kjServiceMpTag : Nat

/-- What a blocking receive of the registration reply answered. -/
inductive RecvReply where
  | ok (reply : RegistrationReply)
  | failed
  | threw

/-- What the message-passing layer answers during one call of `RegisterSelf`, one field for
each call made by the function (a field is not consulted when its call is not reached). -/
structure Handshake where
  sendRequest : Outcome
  recvReply : RecvReply
  sendError : Outcome
  sendConfirm : Outcome
  recvAck : Outcome
  verifyAll : Outcome

/-- Build-time constants of the worker binary that are defined outside the source file. -/
structure BuildConfig where
  THOR_VERSION_MAJOR : Nat
  THOR_VERSION_MINOR : Nat
  BUILD_TAG : String
  debug : Bool
  TPORT_mp : Nat
  TE_FailedToRegisterSlave : Nat
  DEFAULT_SLAVEPORTINC : Int
  DEFAULT_THORSLAVEPORT : Int

/-- The arguments `setupCluster` was called with. -/
structure ClusterSetup where
  masterNode : INode
  processGroup : IGroup
  channelsPerSlave : Nat
  slaveBasePort : Nat
  localThorPortInc : Nat

/-- The file-scope variables and the parts of the process state the functions consult. -/
structure State where
  masterNode : Option INode
  slfEp : SocketEndpoint
  mySlaveNum : Nat
  cmdArgs : PTree
  isRegistered : Bool
  jobListenerStopped : Bool
  globals : PTree
  masterSlaveMpTag : Nat
  kjServiceMpTag : Nat
  myNode : INode
  masterPortBase : Nat
  mpServerStarted : Bool
  cluster : Option ClusterSetup
  sent : List SendEvent

/-- The state at the start of `main`, before the command line is read: nothing registered, no
coordinator, the job listener flag in its initial stopped value. -/
def State.initial (myNode : INode) : State :=
  { masterNode := none
    slfEp := myNode.endpoint
    mySlaveNum := 0
    cmdArgs := {}
    isRegistered := false
    jobListenerStopped := true
    globals := {}
    masterSlaveMpTag := 0
    kjServiceMpTag := 0
    myNode := myNode
    masterPortBase := 0
    mpServerStarted := false
    cluster := none
    sent := [] }

/-- Hand a message to the message-passing layer and record it with the layer's answer. -/
def State.send (s : State) (dest : Target) (tag : mptag_t) (body : CMessageBuffer)
    (timeout : Option Nat) (result : Outcome) : State :=
  { s with sent := s.sent ++ [{ dest := dest, tag := tag, body := body, timeout := timeout, result := result }] }

/-! ## Helpers of the source file's collaborators -/

/-- Modelled from the spec: `getFixedPort` (thorport.hpp) is outside the source file; the
control port is the coordinator's port base offset by the port kind, as a 16-bit port. -/
def getFixedPort (base kind : Nat) : Nat := (base + kind) % 65536

/-- Modelled from the spec: `SocketEndpoint::getUrlStr` is outside the source file; the text form
of an endpoint is its host followed by its port. -/
def getUrlStr (ep : SocketEndpoint) : String := ep.ip ++ ":" ++ toString ep.port

/-- How control leaves a block of statements. -/
inductive Flow where
  | done (s : State)
  | ret (b : Bool) (s : State)
  | thrown (s : State)
  | spin (s : State)

/-- How a call of `RegisterSelf` ends: it returns a value, or it never returns. -/
inductive Run where
  | returns (b : Bool) (s : State)
  | hangs (s : State)

/-! ## The functions of thslavemain.cpp -/

/-- The function `replyError`: build the exception text around the worker's own endpoint and
send the serialized exception to rank 0 on the registration tag.  The result of the send is
not looked at; an exception thrown by the send propagates to the caller. -/
def replyError (errorCode : Nat) (errorMsg : String) (answer : Outcome) (s : State) : Flow :=
  let myEp := s.myNode.endpoint
  let str := "Node '" ++ getUrlStr myEp ++ "' exception: " ++ errorMsg
  let e : IException := IException.mk errorCode str
  let msg : CMessageBuffer := [Field.exception (some e)]
  let s1 := s.send (Target.groupRank 0) mptag_t.MPTAG_THORREGISTRATION msg none answer
  match answer with
  | Outcome.threw => Flow.thrown s1
  | _ => Flow.done s1

/-- The condition `!_masterBuildTag || 0 != strcmp(BUILD_TAG, _masterBuildTag)` of
`RegisterSelf`: the master build tag is missing or is not the worker's build tag. -/
def buildTagMismatch (BUILD_TAG : String) (_masterBuildTag : Option String) : Bool :=
  match _masterBuildTag with
  | none => true
  | some tag => decide (tag ≠ BUILD_TAG)

/-- The statements of the `try` block of `RegisterSelf`, in source order. -/
def RegisterSelf.body (b : BuildConfig) (t : Handshake) (masterEp : SocketEndpoint)
    (s : State) : Flow :=
  let ep : SocketEndpoint := { masterEp with port := getFixedPort s.masterPortBase b.TPORT_mp }
  let masterNode : INode := INode.mk ep
  -- msg.append(mySlaveNum); queryWorldCommunicator().send(...): the result is not looked at
  let s := s.send (Target.worldNode (some masterNode)) mptag_t.MPTAG_THORREGISTRATION
    [Field.unsigned s.mySlaveNum] none t.sendRequest
  match t.sendRequest with
  | Outcome.threw => Flow.thrown s
  | _ =>
  -- if (!queryWorldCommunicator().recv(...)) return false;
  match t.recvReply with
  | RecvReply.threw => Flow.thrown s
  | RecvReply.failed => Flow.ret false s
  | RecvReply.ok reply =>
  let vmajor := reply.vmajor
  let vminor := reply.vminor
  let processGroup := reply.processGroup
  -- mySlaveNum = (unsigned)processGroup->rank(queryMyNode()); assertex(NotFound != mySlaveNum);
  -- (assertex, from jlib, throws an IException when its condition is false, in every build)
  let s := { s with mySlaveNum := processGroup.rank s.myNode }
  if s.mySlaveNum = NotFound then Flow.thrown s else
  -- mySlaveNum++
  let s := { s with mySlaveNum := (s.mySlaveNum + 1) % 4294967296 }
  let configSlaveNum := toUnsigned (getPropInt s.globals.slavenum (-1))
  -- if (NotFound != configSlaveNum) assertex(mySlaveNum == configSlaveNum);
  if configSlaveNum ≠ NotFound ∧ s.mySlaveNum ≠ configSlaveNum then Flow.thrown s else
  -- globals.setown(createPTree(msg)); loadArgsIntoConfiguration(globals, cmdArgs);
  let s := { s with globals := reply.globals }
  let s := { s with globals := loadArgsIntoConfiguration s.globals s.cmdArgs }
  -- #ifdef _DEBUG: if (mySlaveNum == holdSlave) { bool held = true; while (held) Sleep(5); }
  -- (nothing in the program clears `held`, so the loop does not end)
  let holdSlave := toUnsigned (getPropInt s.globals.holdSlave (-1))
  if b.debug = true ∧ s.mySlaveNum = holdSlave then Flow.spin s else
  let channelsPerSlave := toUnsigned (getPropInt s.globals.channelsPerSlave 1)
  let localThorPortInc := toUnsigned (getPropInt s.globals.localThorPortInc b.DEFAULT_SLAVEPORTINC)
  let slaveBasePort := toUnsigned (getPropInt s.globals.slaveport b.DEFAULT_THORSLAVEPORT)
  -- setupCluster(masterNode, processGroup, channelsPerSlave, slaveBasePort, localThorPortInc);
  let s := { s with cluster := some (ClusterSetup.mk masterNode processGroup channelsPerSlave
    slaveBasePort localThorPortInc) }
  if vmajor ≠ b.THOR_VERSION_MAJOR ∨ vminor ≠ b.THOR_VERSION_MINOR then
    match replyError b.TE_FailedToRegisterSlave "Thor master/slave version mismatch" t.sendError s with
    | Flow.done s1 => Flow.ret false s1
    | other => other
  else
  -- strand defaults are written back when the attribute is missing
  let s := { s with globals := { s.globals with
    forceNumStrands := some (s.globals.forceNumStrands.getD 0)
    strandBlockSize := some (s.globals.strandBlockSize.getD 512) } }
  let _masterBuildTag := s.globals.masterBuildTag
  let masterBuildTag := _masterBuildTag.getD "no build tag"
  let mismatch : Bool := buildTagMismatch b.BUILD_TAG _masterBuildTag
  let errStr := "Thor master/slave build mismatch, master = " ++ masterBuildTag ++ ", slave = " ++ b.BUILD_TAG
  -- #ifndef _DEBUG: replyError(...); return false;
  if mismatch = true ∧ b.debug = false then
    match replyError b.TE_FailedToRegisterSlave errStr t.sendError s with
    | Flow.done s1 => Flow.ret false s1
    | other => other
  else
  let s := { s with masterSlaveMpTag := reply.masterSlaveMpTag, kjServiceMpTag := reply.kjServiceMpTag }
  -- msg.clear(); if (!queryNodeComm().send(msg, 0, MPTAG_THORREGISTRATION)) return false;
  let s := s.send (Target.groupRank 0) mptag_t.MPTAG_THORREGISTRATION [] none t.sendConfirm
  match t.sendConfirm with
  | Outcome.threw => Flow.thrown s
  | Outcome.failed => Flow.ret false s
  | Outcome.ok =>
  -- if (!queryNodeComm().recv(msg, 0, MPTAG_THORREGISTRATION)) return false;
  match t.recvAck with
  | Outcome.threw => Flow.thrown s
  | Outcome.failed => Flow.ret false s
  | Outcome.ok =>
  -- ::masterNode = LINK(masterNode);
  let s := { s with masterNode := some masterNode }
  -- verifyAll: a false result is only logged
  match t.verifyAll with
  | Outcome.threw => Flow.thrown s
  | _ => Flow.done s

/-- The function `RegisterSelf`: the `try` block, the `catch (IException *)` that returns false,
and the statements `isRegistered = true; return true;` after it. -/
def RegisterSelf (b : BuildConfig) (t : Handshake) (masterEp : SocketEndpoint) (s : State) : Run :=
  match RegisterSelf.body b t masterEp s with
  | Flow.thrown s1 => Run.returns false s1
  | Flow.ret r s1 => Run.returns r s1
  | Flow.spin s1 => Run.hangs s1
  | Flow.done s1 => Run.returns true { s1 with isRegistered := true }

/-- The function `UnregisterSelf`; `answer` is what the layer answers to the send, if the
send is reached. -/
def UnregisterSelf (e : Option IException) (answer : Outcome) (s : State) : Bool × State :=
  if s.mpServerStarted = false then (false, s)
  else if s.isRegistered = false then (false, s)
  else
    -- msg.append(rc_deregister); serializeException(e, msg);
    let msg : CMessageBuffer := [Field.opcode RegistryCode.rc_deregister, Field.exception e]
    let s1 := s.send (Target.worldNode s.masterNode) mptag_t.MPTAG_THORREGISTRATION msg
      (some (60 * 1000)) answer
    match answer with
    | Outcome.failed => (false, s1)
    | Outcome.threw => (false, s1)
    | Outcome.ok => (true, { s1 with isRegistered := false })

/-- The kind of signal handed to an abort handler. -/
inductive ahType where
  | ahTerminate
  | ahInterrupt
deriving DecidableEq, Repr

/-- Modelled from the spec: `abortSlave` (slavmain.cpp) is outside the source file; it requests
cancellation of the job executor.  Whether the request raises the stopped flag that `main` hands
to `slaveMain` depends on the executor, so it is an input. -/
def abortSlave (stops : Bool) (s : State) : State :=
  if stops = true then { s with jobListenerStopped := true } else s

/-- The function `ControlHandler`; `answer` is what the layer answers to the send of
`UnregisterSelf`, `stops` the effect of `abortSlave`.  The signal type only selects the
line that is logged. -/
def ControlHandler (_type : ahType) (answer : Outcome) (stops : Bool) (s : State) : Bool × State :=
  if s.jobListenerStopped = false then
    let r : Bool × State :=
      if s.masterNode.isSome = true then UnregisterSelf none answer s else (false, s)
    (!r.1, abortSlave stops r.2)
  else
    (true, s)

/-! ## Observations on runs and on the log of sent messages -/

/-- The value a call returned, `none` when the call never returns. -/
def Run.result : Run → Option Bool
  | Run.returns b _ => some b
  | Run.hangs _ => none

/-- The state in which a call ends (for a hanging call, the state it hangs in). -/
def Run.state : Run → State
  | Run.returns _ s => s
  | Run.hangs s => s

/-- The state in which control leaves a block. -/
def Flow.state : Flow → State
  | Flow.done s => s
  | Flow.ret _ s => s
  | Flow.thrown s => s
  | Flow.spin s => s

/-- The value of the `return` statement by which control left a block, if it left by one. -/
def Flow.returned : Flow → Option Bool
  | Flow.ret b _ => some b
  | _ => none

/-- Whether control left a block by a propagating exception. -/
def Flow.isThrown : Flow → Bool
  | Flow.thrown _ => true
  | _ => false

/-- The registration request of `RegisterSelf`: the provisional ordinal `mySlaveNum`, sent to
the coordinator's control endpoint on the registration tag. -/
def registrationRequest (b : BuildConfig) (masterEp : SocketEndpoint) (s : State)
    (answer : Outcome) : SendEvent :=
  { dest := Target.worldNode (some (INode.mk { masterEp with port := getFixedPort s.masterPortBase b.TPORT_mp }))
    tag := mptag_t.MPTAG_THORREGISTRATION
    body := [Field.unsigned s.mySlaveNum]
    timeout := none
    result := answer }

/-- The error report of `replyError`: the serialized exception, sent to rank 0 on the
registration tag. -/
def errorReport (errorCode : Nat) (errorMsg : String) (myNode : INode) (answer : Outcome) : SendEvent :=
  { dest := Target.groupRank 0
    tag := mptag_t.MPTAG_THORREGISTRATION
    body := [Field.exception (some (IException.mk errorCode
      ("Node '" ++ getUrlStr myNode.endpoint ++ "' exception: " ++ errorMsg)))]
    timeout := none
    result := answer }

/-- The confirmation of `RegisterSelf`: an empty message to rank 0 on the registration tag. -/
def confirmation (answer : Outcome) : SendEvent :=
  { dest := Target.groupRank 0
    tag := mptag_t.MPTAG_THORREGISTRATION
    body := []
    timeout := none
    result := answer }

/-- The deregistration message of `UnregisterSelf`: the opcode `rc_deregister` followed by the
serialized reason, sent to the stored coordinator with a timeout of 60 seconds. -/
def deregistration (e : Option IException) (coordinator : Option INode) (answer : Outcome) :
    SendEvent :=
  { dest := Target.worldNode coordinator
    tag := mptag_t.MPTAG_THORREGISTRATION
    body := [Field.opcode RegistryCode.rc_deregister, Field.exception e]
    timeout := some 60000
    result := answer }

/-- The text of the build-mismatch error built by `RegisterSelf`. -/
def buildMismatchText (b : BuildConfig) (masterBuildTag : Option String) : String :=
  "Thor master/slave build mismatch, master = " ++ masterBuildTag.getD "no build tag" ++
    ", slave = " ++ b.BUILD_TAG

/-- A sent message is an error report when it goes to rank 0 and carries a serialized exception. -/
def SendEvent.isErrorReport (ev : SendEvent) : Bool :=
  match ev.dest, ev.body with
  | Target.groupRank 0, [Field.exception (some _)] => true
  | _, _ => false

/-- A sent message is a confirmation when it goes to rank 0 with an empty body. -/
def SendEvent.isConfirmation (ev : SendEvent) : Bool :=
  match ev.dest, ev.body with
  | Target.groupRank 0, [] => true
  | _, _ => false

/-- A sent message is a deregistration when its body starts with the opcode `rc_deregister`. -/
def SendEvent.isDeregistration (ev : SendEvent) : Bool :=
  match ev.body with
  | Field.opcode RegistryCode.rc_deregister :: _ => true
  | _ => false

/-- A confirmation in the log was not accepted by the layer (the send returned false or threw). -/
def confirmationRefused (log : List SendEvent) : Bool :=
  log.any fun ev => ev.isConfirmation && decide (ev.result ≠ Outcome.ok)

/-- A confirmation in the log was accepted by the layer. -/
def confirmationAccepted (log : List SendEvent) : Bool :=
  log.any fun ev => ev.isConfirmation && decide (ev.result = Outcome.ok)

/-- The number of deregistration messages in a log that the layer accepted. -/
def deregistrationsDelivered (log : List SendEvent) : Nat :=
  log.countP fun ev => ev.isDeregistration && decide (ev.result = Outcome.ok)

/-- The messages a run added to the log of the state it started from. -/
def newMessages (before after : State) : List SendEvent :=
  after.sent.drop before.sent.length

/-! ## Sequences of calls -/

/-- One step of the worker after registration that runs from its call to its return: a call of
`UnregisterSelf`, a delivery of a signal to `ControlHandler`, or a write of the job listener to
the flag `main` handed it.  Invocations that overlap are the subject of `Step` below. -/
inductive Call where
  | unregister (e : Option IException) (answer : Outcome)
  | control (type : ahType) (answer : Outcome) (stops : Bool)
  | listener (stopped : Bool)

/-- The state after one such step. -/
def Call.step (c : Call) (s : State) : State :=
  match c with
  | Call.unregister e answer => (UnregisterSelf e answer s).2
  | Call.control type answer stops => (ControlHandler type answer stops s).2
  | Call.listener stopped => { s with jobListenerStopped := stopped }

/-- Repeated calls of `UnregisterSelf`, each with its reason and the answer of the layer: the
values returned, first call first, and the final state. -/
def unregisterRepeatedly : List (Option IException × Outcome) → State → List Bool × State
  | [], s => ([], s)
  | (e, answer) :: rest, s =>
    let r := UnregisterSelf e answer s
    let rs := unregisterRepeatedly rest r.2
    (r.1 :: rs.1, rs.2)

/-! ## The scenario of the specification -/

/-- The worker of the scenario, at 10.0.0.5:20100. -/
def scenarioWorker : INode := INode.mk (SocketEndpoint.mk "10.0.0.5" 20100)

/-- A node that is not the worker. -/
def scenarioPeer (host : String) : INode := INode.mk (SocketEndpoint.mk host 20100)

/-- The process group of the scenario: 10.0.0.2, 10.0.0.5, 10.0.0.9. -/
def scenarioGroup : IGroup :=
  { nodes := [scenarioPeer "10.0.0.2", scenarioWorker, scenarioPeer "10.0.0.9"]
    nodup := by decide
    small := by decide }

/-- A process group that omits the worker. -/
def groupWithoutWorker : IGroup :=
  { nodes := [scenarioPeer "10.0.0.2", scenarioPeer "10.0.0.9"]
    nodup := by decide
    small := by decide }

/-- A worker binary of version 4.0; the remaining constants are sample values. -/
def scenarioBuild (debug : Bool) : BuildConfig :=
  { THOR_VERSION_MAJOR := 4
    THOR_VERSION_MINOR := 0
    BUILD_TAG := "community_4.0.0-1"
    debug := debug
    TPORT_mp := 0
    TE_FailedToRegisterSlave := 10005
    DEFAULT_SLAVEPORTINC := 20
    DEFAULT_THORSLAVEPORT := 20100 }

/-- The coordinator endpoint of the scenario. -/
def scenarioMasterEp : SocketEndpoint := SocketEndpoint.mk "10.0.0.1" 20000

/-- A reply of the coordinator with the given version, group and configuration. -/
def scenarioReply (vmajor vminor : Nat) (group : IGroup) (globals : PTree) : RegistrationReply :=
  { vmajor := vmajor
    vminor := vminor
    processGroup := group
    globals := globals
    masterSlaveMpTag := 101
    kjServiceMpTag := 102 }

/-- The reply of the scenario: version 4.0, the worker second in the group, the coordinator's
build tag equal to the worker's. -/
def matchingReply : RegistrationReply :=
  scenarioReply 4 0 scenarioGroup { masterBuildTag := some "community_4.0.0-1" }

/-- The reply of the scenario with `@holdSlave = 2` in the configuration. -/
def heldReply : RegistrationReply :=
  scenarioReply 4 0 scenarioGroup { masterBuildTag := some "community_4.0.0-1", holdSlave := some 2 }

/-- A reply of version 4.0 from a coordinator of another build, over the given group. -/
def otherBuildReply (group : IGroup) : RegistrationReply :=
  scenarioReply 4 0 group { masterBuildTag := some "community_4.0.0-2" }

/-- A reply of version 4.1 over the given group. -/
def otherVersionReply (group : IGroup) : RegistrationReply :=
  scenarioReply 4 1 group { masterBuildTag := some "community_4.0.0-1" }

/-- The state of the worker when `main` calls `RegisterSelf`: transport started, no static
worker number, so `mySlaveNum` is `NotFound`. -/
def scenarioStart : State :=
  { State.initial scenarioWorker with
    mySlaveNum := NotFound
    masterPortBase := 20000
    mpServerStarted := true }

/-- A message-passing layer in which every call succeeds and that delivers the given reply. -/
def allSucceed (reply : RegistrationReply) : Handshake :=
  { sendRequest := Outcome.ok
    recvReply := RecvReply.ok reply
    sendError := Outcome.ok
    sendConfirm := Outcome.ok
    recvAck := Outcome.ok
    verifyAll := Outcome.ok }

/-- A message-passing layer that delivers the given reply and then refuses the confirmation. -/
def refusedConfirmation (reply : RegistrationReply) : Handshake :=
  { allSucceed reply with sendConfirm := Outcome.failed }

/-- A registered worker: transport started, coordinator stored, job listener running. -/
def registeredState : State :=
  { scenarioStart with
    masterNode := some (INode.mk scenarioMasterEp)
    mySlaveNum := 2
    isRegistered := true
    jobListenerStopped := false }

/-! ## Sequences of calls that include registration -/

/-- One step of the worker process: a call of `RegisterSelf` with what the transport answers
during it, or one of the steps of `Call`. -/
inductive Action where
  | register (t : Handshake) (masterEp : SocketEndpoint)
  | call (c : Call)

/-- The state after one step of the worker process; for a call of `RegisterSelf` that hangs,
the state it hangs in (signals are still delivered to `ControlHandler` then). -/
def Action.step (b : BuildConfig) (a : Action) (s : State) : State :=
  match a with
  | Action.register t masterEp => (RegisterSelf b t masterEp s).state
  | Action.call c => c.step s

/-- The state after a sequence of steps of the worker process, first step first. -/
def runActions (b : BuildConfig) (actions : List Action) (s : State) : State :=
  actions.foldl (fun st a => a.step b st) s

/-- Whether control reached the end of a block, neither returning, throwing nor spinning. -/
def Flow.completed : Flow → Bool
  | Flow.done _ => true
  | _ => false

/-- A sent message is a deregistration addressed to a null coordinator. -/
def SendEvent.isNullDeregistration (ev : SendEvent) : Bool :=
  ev.isDeregistration && decide (ev.dest = Target.worldNode none)

/-- The number of deregistration messages in a log that were handed to the layer with a null
coordinator, whatever the layer answered. -/
def nullDeregistrations (log : List SendEvent) : Nat :=
  log.countP SendEvent.isNullDeregistration

/-- The worker invariant: while `isRegistered` is true a coordinator reference is stored. -/
def State.coordinatorKnown (s : State) : Prop :=
  s.isRegistered = true → s.masterNode ≠ none

/-- A run of the worker process: a registration whose reply is missing, the registration of the
scenario, the job listener starting, an interrupt whose deregistration send fails, and the call
of `UnregisterSelf` that `main` makes with the exception it caught. -/
def scenarioLifetime : List Action :=
  [Action.register { allSucceed matchingReply with recvReply := RecvReply.failed } scenarioMasterEp,
   Action.register (allSucceed matchingReply) scenarioMasterEp,
   Action.call (Call.listener false),
   Action.call (Call.control ahType.ahInterrupt Outcome.failed false),
   Action.call (Call.unregister (some (IException.mk 1 "ThorSlave")) Outcome.ok)]

/-! ## Overlapping invocations -/

/-- An invocation of `UnregisterSelf` that has passed both guards and has not returned yet: it
builds its message and blocks in the send.  Recorded are the reason it was called with, the
coordinator reference it hands to the send, and whether it was called from `ControlHandler`,
which calls `abortSlave` after it. -/
structure InFlight where
  reason : Option IException
  coordinator : Option INode
  fromHandler : Bool
deriving DecidableEq, Repr

/-- The part of `UnregisterSelf` before the send returns: the two guards, then the message is
built and handed to the transport.  `none` when a guard makes the function return false. -/
def UnregisterSelf.begin (e : Option IException) (s : State) : Option InFlight :=
  if s.mpServerStarted = false then none
  else if s.isRegistered = false then none
  else some { reason := e, coordinator := s.masterNode, fromHandler := false }

/-- The part of `UnregisterSelf` from the return of the send: the message is logged with the
answer of the transport, and `isRegistered` is cleared when the send succeeded. -/
def UnregisterSelf.finish (p : InFlight) (answer : Outcome) (s : State) : Bool × State :=
  let msg : CMessageBuffer := [Field.opcode RegistryCode.rc_deregister, Field.exception p.reason]
  let s1 := s.send (Target.worldNode p.coordinator) mptag_t.MPTAG_THORREGISTRATION msg
    (some (60 * 1000)) answer
  match answer with
  | Outcome.failed => (false, s1)
  | Outcome.threw => (false, s1)
  | Outcome.ok => (true, { s1 with isRegistered := false })

/-- The part of `ControlHandler` before the send of `UnregisterSelf(NULL)` returns.  When no
send is started the handler runs to its return, calling `abortSlave` unless the job listener
is stopped. -/
def ControlHandler.begin (stops : Bool) (s : State) : Option InFlight × State :=
  if s.jobListenerStopped = false then
    if s.masterNode.isSome = true then
      match UnregisterSelf.begin none s with
      | some p => (some { p with fromHandler := true }, s)
      | none => (none, abortSlave stops s)
    else (none, abortSlave stops s)
  else (none, s)

/-- The part of `ControlHandler` from the return of the send of `UnregisterSelf(NULL)`: the
rest of `UnregisterSelf`, then `abortSlave`, then `return !unregOK`. -/
def ControlHandler.finish (p : InFlight) (answer : Outcome) (stops : Bool) (s : State) :
    Bool × State :=
  let r := UnregisterSelf.finish p answer s
  (!r.1, abortSlave stops r.2)

/-- A member found at position `i` has rank `i`, and `i + 1` fits in 32 bits. -/
theorem IGroup.rank_of_get (g : IGroup) (node : INode) (i : Nat)
    (h : g.nodes.get? i = some node) : g.rank node = i ∧ i + 1 < 4294967296 := by
  obtain ⟨hi, hget⟩ := List.get?_eq_some.mp h
  have hmem : node ∈ g.nodes := hget ▸ List.get_mem g.nodes i hi
  have hidx : g.nodes.indexOf node = i := by
    have := List.get_indexOf g.nodup ⟨i, hi⟩
    rw [hget] at this
    exact this
  have hs := g.small
  unfold RANK_NULL at hs
  refine ⟨?_, by omega⟩
  simp [IGroup.rank, hmem, hidx]

/-- A node that is not a member has rank `RANK_NULL`. -/
theorem IGroup.rank_absent (g : IGroup) (node : INode) (h : node ∉ g.nodes) :
    g.rank node = RANK_NULL := by
  simp [IGroup.rank, h]

/-- Reading a configured number below 2^32 as `unsigned` gives the number back. -/
theorem toUnsigned_getPropInt_nat (n : Nat) (h : n < 4294967296) :
    toUnsigned (getPropInt (some (n : Int)) (-1)) = n := by
  simp only [toUnsigned, getPropInt, toInt32]
  omega

/-- The static-number assertion passes when `@slavenum` is absent or equals the derived rank. -/
theorem slavenum_assert_passes (cfg : Option Int) (i : Nat) (hlt : i + 1 < 4294967296)
    (hcfg : cfg = none ∨ cfg = some ((i + 1 : Nat) : Int)) :
    ¬ (toUnsigned (getPropInt cfg (-1)) ≠ NotFound ∧ i + 1 ≠ toUnsigned (getPropInt cfg (-1))) := by
  rcases hcfg with h | h
  · rw [h]; simp [getPropInt, toUnsigned, NotFound]
  · rw [h, toUnsigned_getPropInt_nat _ hlt]; simp

/-- The debug hold is not entered in a release build or when `@holdSlave` is another number. -/
theorem hold_not_entered (b : BuildConfig) (hold : Option Int) (i : Nat)
    (hhold : b.debug = false ∨ toUnsigned (getPropInt hold (-1)) ≠ i + 1) :
    ¬ (b.debug = true ∧ i + 1 = toUnsigned (getPropInt hold (-1))) := by
  rcases hhold with h | h
  · simp [h]
  · intro hc; exact h hc.2.symm

/-- The build tags mismatch exactly when the master build tag is not the worker's tag. -/
theorem buildTagMismatch_iff (tag : String) (m : Option String) :
    buildTagMismatch tag m = true ↔ m ≠ some tag := by
  cases m <;> simp [buildTagMismatch]

/-! ## Registration -/

/-- C1 (amended): when the versions agree, the master build tag read from the merged
configuration equals `BUILD_TAG`, the worker's node is at 0-based position `i` of the received
group, a static `@slavenum` is absent or `i + 1`, every send and receive succeeds, and the
build is not a debug build holding worker `i + 1`, then `RegisterSelf` returns true with
`isRegistered` true and `mySlaveNum = i + 1`, whether `verifyAll` answers true or false. -/
theorem registerSelf_success (b : BuildConfig) (t : Handshake) (masterEp : SocketEndpoint)
    (s : State) (reply : RegistrationReply) (i : Nat)
    (hreq : t.sendRequest = Outcome.ok) (hrecv : t.recvReply = RecvReply.ok reply)
    (hconf : t.sendConfirm = Outcome.ok) (hack : t.recvAck = Outcome.ok)
    (hver : t.verifyAll = Outcome.ok ∨ t.verifyAll = Outcome.failed)
    (hmajor : reply.vmajor = b.THOR_VERSION_MAJOR) (hminor : reply.vminor = b.THOR_VERSION_MINOR)
    (htag : (loadArgsIntoConfiguration reply.globals s.cmdArgs).masterBuildTag = some b.BUILD_TAG)
    (hpos : reply.processGroup.nodes.get? i = some s.myNode)
    (hcfg : s.globals.slavenum = none ∨ s.globals.slavenum = some ((i + 1 : Nat) : Int))
    (hhold : b.debug = false ∨
      toUnsigned (getPropInt (loadArgsIntoConfiguration reply.globals s.cmdArgs).holdSlave (-1)) ≠ i + 1) :
    (RegisterSelf b t masterEp s).result = some true ∧
      (RegisterSelf b t masterEp s).state.isRegistered = true ∧
      (RegisterSelf b t masterEp s).state.mySlaveNum = i + 1 := by
  obtain ⟨hrank, hlt⟩ := IGroup.rank_of_get _ _ _ hpos
  have hmod : (i + 1) % 4294967296 = i + 1 := Nat.mod_eq_of_lt hlt
  have hnf : i ≠ NotFound := by unfold NotFound; omega
  have hcfg2 := slavenum_assert_passes _ i hlt hcfg
  have hh := hold_not_entered b _ i hhold
  have hmis : buildTagMismatch b.BUILD_TAG
      (loadArgsIntoConfiguration reply.globals s.cmdArgs).masterBuildTag = false := by
    rw [htag]; simp [buildTagMismatch]
  simp only [RegisterSelf, RegisterSelf.body, hreq, hrecv, hconf, hack, State.send, hrank, hmod]
  rcases hver with hv | hv <;> simp [hv, hnf, hcfg2, hh, hmajor, hminor, hmis, Run.result, Run.state]

/-- C1, the scenario of the specification: worker 10.0.0.5 in the group
10.0.0.2, 10.0.0.5, 10.0.0.9 with version 4.0 on both sides gets rank 2 and is registered. -/
theorem registerSelf_success_witness :
    (RegisterSelf (scenarioBuild false) (allSucceed matchingReply) scenarioMasterEp
        scenarioStart).result = some true ∧
      (RegisterSelf (scenarioBuild false) (allSucceed matchingReply) scenarioMasterEp
        scenarioStart).state.isRegistered = true ∧
      (RegisterSelf (scenarioBuild false) (allSucceed matchingReply) scenarioMasterEp
        scenarioStart).state.mySlaveNum = 1 + 1 :=
  registerSelf_success (scenarioBuild false) (allSucceed matchingReply) scenarioMasterEp
    scenarioStart matchingReply 1
    rfl rfl rfl rfl (Or.inl rfl) rfl rfl rfl rfl (Or.inl rfl) (Or.inl rfl)

/-- C1 as stated fails in a debug build: with `@holdSlave = 2` in the reply, every premise of
the claim holds for the scenario (versions 4.0, matching build tag, worker at position 1, no
static number, all transport calls succeeding), yet the worker spins in the debug hold and
`RegisterSelf` never returns. -/
theorem registerSelf_debug_hold_never_returns :
    heldReply.vmajor = (scenarioBuild true).THOR_VERSION_MAJOR ∧
      heldReply.vminor = (scenarioBuild true).THOR_VERSION_MINOR ∧
      (loadArgsIntoConfiguration heldReply.globals scenarioStart.cmdArgs).masterBuildTag
        = some (scenarioBuild true).BUILD_TAG ∧
      heldReply.processGroup.nodes.get? 1 = some scenarioStart.myNode ∧
      scenarioStart.globals.slavenum = none ∧
      (RegisterSelf (scenarioBuild true) (allSucceed heldReply) scenarioMasterEp
        scenarioStart).result = none ∧
      (RegisterSelf (scenarioBuild true) (allSucceed heldReply) scenarioMasterEp
        scenarioStart).state.isRegistered = false := by
  refine ⟨rfl, rfl, rfl, rfl, rfl, ?_, ?_⟩ <;> decide

/-- C2 (amended): when a reply is received whose version differs from the worker's in either
component, the worker's node is at position `i` of the received group, a static `@slavenum`
is absent or `i + 1`, and the build is not a debug build holding worker `i + 1`, then
`RegisterSelf` returns false, leaves `isRegistered` as it was, and the messages it sent are
the registration request followed by the version-mismatch error report to rank 0 on the
registration tag. -/
theorem registerSelf_version_mismatch (b : BuildConfig) (t : Handshake)
    (masterEp : SocketEndpoint) (s : State) (reply : RegistrationReply) (i : Nat)
    (hreq : t.sendRequest ≠ Outcome.threw) (hrecv : t.recvReply = RecvReply.ok reply)
    (hver : reply.vmajor ≠ b.THOR_VERSION_MAJOR ∨ reply.vminor ≠ b.THOR_VERSION_MINOR)
    (hpos : reply.processGroup.nodes.get? i = some s.myNode)
    (hcfg : s.globals.slavenum = none ∨ s.globals.slavenum = some ((i + 1 : Nat) : Int))
    (hhold : b.debug = false ∨
      toUnsigned (getPropInt (loadArgsIntoConfiguration reply.globals s.cmdArgs).holdSlave (-1)) ≠ i + 1) :
    (RegisterSelf b t masterEp s).result = some false ∧
      (RegisterSelf b t masterEp s).state.isRegistered = s.isRegistered ∧
      (RegisterSelf b t masterEp s).state.sent = s.sent ++
        [registrationRequest b masterEp s t.sendRequest,
         errorReport b.TE_FailedToRegisterSlave "Thor master/slave version mismatch" s.myNode
           t.sendError] := by
  obtain ⟨hrank, hlt⟩ := IGroup.rank_of_get _ _ _ hpos
  have hmod : (i + 1) % 4294967296 = i + 1 := Nat.mod_eq_of_lt hlt
  have hnf : i ≠ NotFound := by unfold NotFound; omega
  have hcfg2 := slavenum_assert_passes _ i hlt hcfg
  have hh := hold_not_entered b _ i hhold
  simp only [RegisterSelf, RegisterSelf.body, hrecv, State.send, hrank, hmod, replyError]
  cases hq : t.sendRequest <;> cases he : t.sendError <;>
    first
    | exact absurd hq hreq
    | simp [hnf, hcfg2, hh, hver, Run.result, Run.state, registrationRequest, errorReport]

/-- C2, witness: the scenario with a coordinator of version 4.1 against a worker of version 4.0. -/
theorem registerSelf_version_mismatch_witness :
    (RegisterSelf (scenarioBuild false) (allSucceed (otherVersionReply scenarioGroup))
        scenarioMasterEp scenarioStart).result = some false ∧
      (RegisterSelf (scenarioBuild false) (allSucceed (otherVersionReply scenarioGroup))
        scenarioMasterEp scenarioStart).state.isRegistered = scenarioStart.isRegistered ∧
      (RegisterSelf (scenarioBuild false) (allSucceed (otherVersionReply scenarioGroup))
        scenarioMasterEp scenarioStart).state.sent = scenarioStart.sent ++
        [registrationRequest (scenarioBuild false) scenarioMasterEp scenarioStart
           (allSucceed (otherVersionReply scenarioGroup)).sendRequest,
         errorReport (scenarioBuild false).TE_FailedToRegisterSlave
           "Thor master/slave version mismatch" scenarioStart.myNode
           (allSucceed (otherVersionReply scenarioGroup)).sendError] :=
  registerSelf_version_mismatch (scenarioBuild false) (allSucceed (otherVersionReply scenarioGroup))
    scenarioMasterEp scenarioStart (otherVersionReply scenarioGroup) 1
    (by decide) rfl (Or.inr (by decide)) rfl (Or.inl rfl) (Or.inl rfl)

/-- C2 as stated fails: a reply of version 4.1 to a worker of version 4.0 whose process group
omits the worker makes `RegisterSelf` return false at the membership assertion, before the
version is compared, and the only message sent is the registration request: no error report
reaches rank 0. -/
theorem registerSelf_version_mismatch_unreported :
    (otherVersionReply groupWithoutWorker).vminor ≠ (scenarioBuild false).THOR_VERSION_MINOR ∧
      (RegisterSelf (scenarioBuild false) (allSucceed (otherVersionReply groupWithoutWorker))
        scenarioMasterEp scenarioStart).result = some false ∧
      (RegisterSelf (scenarioBuild false) (allSucceed (otherVersionReply groupWithoutWorker))
        scenarioMasterEp scenarioStart).state.sent =
        [registrationRequest (scenarioBuild false) scenarioMasterEp scenarioStart Outcome.ok] ∧
      (RegisterSelf (scenarioBuild false) (allSucceed (otherVersionReply groupWithoutWorker))
        scenarioMasterEp scenarioStart).state.sent.any SendEvent.isErrorReport = false := by
  refine ⟨by decide, ?_, ?_, ?_⟩ <;> decide

/-- C3 (amended): take a reply with matching version whose master build tag, read from the
merged configuration, is absent or differs from `BUILD_TAG`, with the worker's node at position
`i` of the received group and a static `@slavenum` absent or `i + 1`.  In a non-debug build
`RegisterSelf` returns false, leaves `isRegistered` as it was, and sends the request followed by
the build-mismatch error report to rank 0 and no confirmation.  In a debug build that does not
hold worker `i + 1`, with the confirmation sent, the acknowledgment received and `verifyAll`
not throwing, it sends the request followed by the confirmation and returns true with
`isRegistered` true. -/
theorem registerSelf_build_mismatch (b : BuildConfig) (t : Handshake)
    (masterEp : SocketEndpoint) (s : State) (reply : RegistrationReply) (i : Nat)
    (hreq : t.sendRequest ≠ Outcome.threw) (hrecv : t.recvReply = RecvReply.ok reply)
    (hmajor : reply.vmajor = b.THOR_VERSION_MAJOR) (hminor : reply.vminor = b.THOR_VERSION_MINOR)
    (htag : (loadArgsIntoConfiguration reply.globals s.cmdArgs).masterBuildTag ≠ some b.BUILD_TAG)
    (hpos : reply.processGroup.nodes.get? i = some s.myNode)
    (hcfg : s.globals.slavenum = none ∨ s.globals.slavenum = some ((i + 1 : Nat) : Int)) :
    (b.debug = false →
      (RegisterSelf b t masterEp s).result = some false ∧
      (RegisterSelf b t masterEp s).state.isRegistered = s.isRegistered ∧
      (RegisterSelf b t masterEp s).state.sent = s.sent ++
        [registrationRequest b masterEp s t.sendRequest,
         errorReport b.TE_FailedToRegisterSlave
           (buildMismatchText b (loadArgsIntoConfiguration reply.globals s.cmdArgs).masterBuildTag)
           s.myNode t.sendError]) ∧
    (b.debug = true →
      toUnsigned (getPropInt (loadArgsIntoConfiguration reply.globals s.cmdArgs).holdSlave (-1)) ≠ i + 1 →
      t.sendConfirm = Outcome.ok → t.recvAck = Outcome.ok → t.verifyAll ≠ Outcome.threw →
      (RegisterSelf b t masterEp s).result = some true ∧
      (RegisterSelf b t masterEp s).state.isRegistered = true ∧
      (RegisterSelf b t masterEp s).state.sent = s.sent ++
        [registrationRequest b masterEp s t.sendRequest, confirmation Outcome.ok]) := by
  obtain ⟨hrank, hlt⟩ := IGroup.rank_of_get _ _ _ hpos
  have hmod : (i + 1) % 4294967296 = i + 1 := Nat.mod_eq_of_lt hlt
  have hnf : i ≠ NotFound := by unfold NotFound; omega
  have hcfg2 := slavenum_assert_passes _ i hlt hcfg
  have hmis : buildTagMismatch b.BUILD_TAG
      (loadArgsIntoConfiguration reply.globals s.cmdArgs).masterBuildTag = true :=
    (buildTagMismatch_iff _ _).mpr htag
  constructor
  · intro hd
    simp only [RegisterSelf, RegisterSelf.body, hrecv, State.send, hrank, hmod, replyError]
    have hh := hold_not_entered b (loadArgsIntoConfiguration reply.globals s.cmdArgs).holdSlave i
      (Or.inl hd)
    cases hq : t.sendRequest <;> cases he : t.sendError <;>
      first
      | exact absurd hq hreq
      | simp [hnf, hcfg2, hh, hmajor, hminor, hmis, hd, Run.result, Run.state,
          registrationRequest, errorReport, buildMismatchText]
  · intro hd hhold hconf hack hv
    have hh : ¬ (i + 1 =
        toUnsigned (getPropInt (loadArgsIntoConfiguration reply.globals s.cmdArgs).holdSlave (-1))) :=
      fun h => hhold h.symm
    simp only [RegisterSelf, RegisterSelf.body, hrecv, State.send, hrank, hmod, replyError]
    cases hq : t.sendRequest <;> cases hvv : t.verifyAll <;>
      first
      | exact absurd hq hreq
      | exact absurd hvv hv
      | simp [hnf, hcfg2, hh, hmajor, hminor, hmis, hd, hconf, hack, Run.result, Run.state,
          registrationRequest, confirmation]

/-- C3, witness: the scenario with a coordinator of another build, in a release build (error
report, no confirmation) and in a debug build (confirmation, registered). -/
theorem registerSelf_build_mismatch_witness :
    ((RegisterSelf (scenarioBuild false) (allSucceed (otherBuildReply scenarioGroup))
        scenarioMasterEp scenarioStart).result = some false ∧
      (RegisterSelf (scenarioBuild false) (allSucceed (otherBuildReply scenarioGroup))
        scenarioMasterEp scenarioStart).state.isRegistered = scenarioStart.isRegistered ∧
      (RegisterSelf (scenarioBuild false) (allSucceed (otherBuildReply scenarioGroup))
        scenarioMasterEp scenarioStart).state.sent = scenarioStart.sent ++
        [registrationRequest (scenarioBuild false) scenarioMasterEp scenarioStart
           (allSucceed (otherBuildReply scenarioGroup)).sendRequest,
         errorReport (scenarioBuild false).TE_FailedToRegisterSlave
           (buildMismatchText (scenarioBuild false)
             (loadArgsIntoConfiguration (otherBuildReply scenarioGroup).globals
               scenarioStart.cmdArgs).masterBuildTag)
           scenarioStart.myNode (allSucceed (otherBuildReply scenarioGroup)).sendError]) ∧
    ((RegisterSelf (scenarioBuild true) (allSucceed (otherBuildReply scenarioGroup))
        scenarioMasterEp scenarioStart).result = some true ∧
      (RegisterSelf (scenarioBuild true) (allSucceed (otherBuildReply scenarioGroup))
        scenarioMasterEp scenarioStart).state.isRegistered = true ∧
      (RegisterSelf (scenarioBuild true) (allSucceed (otherBuildReply scenarioGroup))
        scenarioMasterEp scenarioStart).state.sent = scenarioStart.sent ++
        [registrationRequest (scenarioBuild true) scenarioMasterEp scenarioStart
           (allSucceed (otherBuildReply scenarioGroup)).sendRequest,
         confirmation Outcome.ok]) :=
  ⟨(registerSelf_build_mismatch (scenarioBuild false) (allSucceed (otherBuildReply scenarioGroup))
      scenarioMasterEp scenarioStart (otherBuildReply scenarioGroup) 1
      (by decide) rfl rfl rfl (by decide) rfl (Or.inl rfl)).1 rfl,
   (registerSelf_build_mismatch (scenarioBuild true) (allSucceed (otherBuildReply scenarioGroup))
      scenarioMasterEp scenarioStart (otherBuildReply scenarioGroup) 1
      (by decide) rfl rfl rfl (by decide) rfl (Or.inl rfl)).2 rfl (by decide) rfl rfl (by decide)⟩

/-- C3 as stated fails: in a non-debug build, a reply of matching version from a coordinator
of another build whose process group omits the worker makes `RegisterSelf` return false at the
membership assertion; the only message sent is the registration request, so no error report
reaches rank 0, unlike the version-mismatch case. -/
theorem registerSelf_build_mismatch_unreported :
    (scenarioBuild false).debug = false ∧
      (otherBuildReply groupWithoutWorker).vmajor = (scenarioBuild false).THOR_VERSION_MAJOR ∧
      (otherBuildReply groupWithoutWorker).vminor = (scenarioBuild false).THOR_VERSION_MINOR ∧
      (loadArgsIntoConfiguration (otherBuildReply groupWithoutWorker).globals
        scenarioStart.cmdArgs).masterBuildTag ≠ some (scenarioBuild false).BUILD_TAG ∧
      (RegisterSelf (scenarioBuild false) (allSucceed (otherBuildReply groupWithoutWorker))
        scenarioMasterEp scenarioStart).result = some false ∧
      (RegisterSelf (scenarioBuild false) (allSucceed (otherBuildReply groupWithoutWorker))
        scenarioMasterEp scenarioStart).state.sent =
        [registrationRequest (scenarioBuild false) scenarioMasterEp scenarioStart Outcome.ok] ∧
      (RegisterSelf (scenarioBuild false) (allSucceed (otherBuildReply groupWithoutWorker))
        scenarioMasterEp scenarioStart).state.sent.any SendEvent.isErrorReport = false := by
  refine ⟨rfl, rfl, rfl, by decide, ?_, ?_, ?_⟩ <;> decide

/-- C4: when the received process group does not contain the worker's node, `RegisterSelf`
returns false, leaves `isRegistered` as it was, and the only message it sent is the
registration request: no error report and no confirmation. -/
theorem registerSelf_not_in_group (b : BuildConfig) (t : Handshake) (masterEp : SocketEndpoint)
    (s : State) (reply : RegistrationReply)
    (hrecv : t.recvReply = RecvReply.ok reply)
    (habsent : s.myNode ∉ reply.processGroup.nodes) :
    (RegisterSelf b t masterEp s).result = some false ∧
      (RegisterSelf b t masterEp s).state.isRegistered = s.isRegistered ∧
      (RegisterSelf b t masterEp s).state.sent =
        s.sent ++ [registrationRequest b masterEp s t.sendRequest] := by
  have hrank := IGroup.rank_absent _ _ habsent
  simp only [RegisterSelf, RegisterSelf.body, hrecv, State.send, hrank]
  cases hq : t.sendRequest <;>
    simp [RANK_NULL, NotFound, Run.result, Run.state, registrationRequest]

/-- C4, witness: the scenario with a process group that omits the worker. -/
theorem registerSelf_not_in_group_witness :
    (RegisterSelf (scenarioBuild false) (allSucceed (scenarioReply 4 0 groupWithoutWorker {}))
        scenarioMasterEp scenarioStart).result = some false ∧
      (RegisterSelf (scenarioBuild false) (allSucceed (scenarioReply 4 0 groupWithoutWorker {}))
        scenarioMasterEp scenarioStart).state.isRegistered = scenarioStart.isRegistered ∧
      (RegisterSelf (scenarioBuild false) (allSucceed (scenarioReply 4 0 groupWithoutWorker {}))
        scenarioMasterEp scenarioStart).state.sent = scenarioStart.sent ++
        [registrationRequest (scenarioBuild false) scenarioMasterEp scenarioStart
          (allSucceed (scenarioReply 4 0 groupWithoutWorker {})).sendRequest] :=
  registerSelf_not_in_group (scenarioBuild false)
    (allSucceed (scenarioReply 4 0 groupWithoutWorker {})) scenarioMasterEp scenarioStart
    (scenarioReply 4 0 groupWithoutWorker {}) rfl (by decide)

/-! ## Deregistration -/

/-- A call of `UnregisterSelf` without a started transport or without a registration returns
false and leaves the state, the log of sent messages included, as it was. -/
theorem unregisterSelf_guard (e : Option IException) (answer : Outcome) (s : State)
    (h : s.mpServerStarted = false ∨ s.isRegistered = false) :
    UnregisterSelf e answer s = (false, s) := by
  unfold UnregisterSelf
  rcases h with h | h
  · simp [h]
  · by_cases hm : s.mpServerStarted = false <;> simp [hm, h]

/-- Repeated calls of `UnregisterSelf` from a state in which the guard fails all return false
and leave the state as it was. -/
theorem unregisterRepeatedly_guard (calls : List (Option IException × Outcome)) (s : State)
    (h : s.mpServerStarted = false ∨ s.isRegistered = false) :
    unregisterRepeatedly calls s = (List.replicate calls.length false, s) := by
  induction calls with
  | nil => rfl
  | cons c rest ih =>
    obtain ⟨e, answer⟩ := c
    simp [unregisterRepeatedly, unregisterSelf_guard e answer s h, ih, List.replicate_succ]

/-- C5: when the transport was never started or `isRegistered` is false, `UnregisterSelf`
returns false for every reason, sends nothing and leaves the state unchanged; any sequence of
repeated calls returns false every time and leaves the state unchanged. -/
theorem unregisterSelf_noop (e : Option IException) (answer : Outcome)
    (calls : List (Option IException × Outcome)) (s : State)
    (h : s.mpServerStarted = false ∨ s.isRegistered = false) :
    UnregisterSelf e answer s = (false, s) ∧
      unregisterRepeatedly calls s = (List.replicate calls.length false, s) :=
  ⟨unregisterSelf_guard e answer s h, unregisterRepeatedly_guard calls s h⟩

/-- C5, witness: three calls before registration, with and without a reason, whatever the
layer would answer. -/
theorem unregisterSelf_noop_witness :
    UnregisterSelf (some (IException.mk 1 "stop")) Outcome.ok scenarioStart
        = (false, scenarioStart) ∧
      unregisterRepeatedly [(none, Outcome.ok), (some (IException.mk 1 "stop"), Outcome.failed),
          (none, Outcome.threw)] scenarioStart
        = (List.replicate [(none, Outcome.ok), (some (IException.mk 1 "stop"), Outcome.failed),
          ((none : Option IException), Outcome.threw)].length false, scenarioStart) :=
  unregisterSelf_noop (some (IException.mk 1 "stop")) Outcome.ok
    [(none, Outcome.ok), (some (IException.mk 1 "stop"), Outcome.failed), (none, Outcome.threw)]
    scenarioStart (Or.inr rfl)

/-- C6: with the transport started and `isRegistered` true, a call of `UnregisterSelf` whose
send succeeds returns true, sets `isRegistered` to false and adds exactly one message to the
log: the opcode `rc_deregister` followed by the serialized reason, to the stored coordinator on
the registration tag.  Every later call returns false and leaves the state, log included,
unchanged. -/
theorem unregisterSelf_once (e : Option IException)
    (calls : List (Option IException × Outcome)) (s : State)
    (hstarted : s.mpServerStarted = true) (hreg : s.isRegistered = true) :
    UnregisterSelf e Outcome.ok s =
        (true, { s with
          isRegistered := false
          sent := s.sent ++ [deregistration e s.masterNode Outcome.ok] }) ∧
      unregisterRepeatedly calls (UnregisterSelf e Outcome.ok s).2 =
        (List.replicate calls.length false, (UnregisterSelf e Outcome.ok s).2) := by
  have h1 : UnregisterSelf e Outcome.ok s =
      (true, { s with
        isRegistered := false
        sent := s.sent ++ [deregistration e s.masterNode Outcome.ok] }) := by
    simp [UnregisterSelf, hstarted, hreg, State.send, deregistration]
  refine ⟨h1, unregisterRepeatedly_guard calls _ (Or.inr ?_)⟩
  rw [h1]

/-- C6, witness: a registered worker deregisters once; two further calls do nothing. -/
theorem unregisterSelf_once_witness :
    UnregisterSelf none Outcome.ok registeredState =
        (true, { registeredState with
          isRegistered := false
          sent := registeredState.sent ++
            [deregistration none registeredState.masterNode Outcome.ok] }) ∧
      unregisterRepeatedly [(none, Outcome.ok), (none, Outcome.ok)]
          (UnregisterSelf none Outcome.ok registeredState).2 =
        (List.replicate [((none : Option IException), Outcome.ok), (none, Outcome.ok)].length false,
          (UnregisterSelf none Outcome.ok registeredState).2) :=
  unregisterSelf_once none [(none, Outcome.ok), (none, Outcome.ok)] registeredState rfl rfl

/-- C7: with the transport started and `isRegistered` true, a call of `UnregisterSelf` whose
send returns false or throws returns false; `isRegistered` is still true and nothing but the
log of attempted sends has changed. -/
theorem unregisterSelf_send_failure (e : Option IException) (answer : Outcome) (s : State)
    (hstarted : s.mpServerStarted = true) (hreg : s.isRegistered = true)
    (hfail : answer = Outcome.failed ∨ answer = Outcome.threw) :
    UnregisterSelf e answer s =
        (false, { s with sent := s.sent ++ [deregistration e s.masterNode answer] }) ∧
      (UnregisterSelf e answer s).2.isRegistered = true := by
  rcases hfail with h | h <;>
    simp [UnregisterSelf, hstarted, hreg, State.send, deregistration, h]

/-- C7, witness: the send of a registered worker throws. -/
theorem unregisterSelf_send_failure_witness :
    UnregisterSelf none Outcome.threw registeredState =
        (false, { registeredState with sent := registeredState.sent ++
          [deregistration none registeredState.masterNode Outcome.threw] }) ∧
      (UnregisterSelf none Outcome.threw registeredState).2.isRegistered = true :=
  unregisterSelf_send_failure none Outcome.threw registeredState rfl rfl (Or.inr rfl)

/-! ## The termination handler -/

/-- C8: for every signal type and every state, `ControlHandler` returns false exactly when the
job listener is not stopped, a coordinator reference exists, and the `UnregisterSelf(NULL)` call
it makes returns true; in every other case it returns true. -/
theorem controlHandler_false_iff (type : ahType) (answer : Outcome) (stops : Bool) (s : State) :
    ((ControlHandler type answer stops s).1 = false ↔
        (s.jobListenerStopped = false ∧ s.masterNode ≠ none ∧
          (UnregisterSelf none answer s).1 = true)) ∧
      (¬ (s.jobListenerStopped = false ∧ s.masterNode ≠ none ∧
          (UnregisterSelf none answer s).1 = true) →
        (ControlHandler type answer stops s).1 = true) := by
  unfold ControlHandler
  cases hj : s.jobListenerStopped <;> cases hm : s.masterNode <;> simp

/-! ## Deregistration messages over a registration lifetime -/

/-- The `try` block of `RegisterSelf` does not write `isRegistered`, sends no deregistration
message, and every `return` in it returns false. -/
theorem body_frame (b : BuildConfig) (t : Handshake) (masterEp : SocketEndpoint) (s : State) :
    (RegisterSelf.body b t masterEp s).state.isRegistered = s.isRegistered ∧
      deregistrationsDelivered (RegisterSelf.body b t masterEp s).state.sent =
        deregistrationsDelivered s.sent ∧
      (RegisterSelf.body b t masterEp s).returned ≠ some true := by
  cases he : t.sendError <;>
  · simp only [RegisterSelf.body, replyError, State.send, he]
    repeat' split
    all_goals simp [Flow.state, Flow.returned, deregistrationsDelivered, List.countP_append,
      SendEvent.isDeregistration]

/-- In the `try` block of `RegisterSelf`, a missing reply, a confirmation the layer did not
accept, or an accepted confirmation whose acknowledgment is not received, each end the block
by `return false` or by an exception. -/
theorem body_failures (b : BuildConfig) (t : Handshake) (masterEp : SocketEndpoint) (s : State) :
    (t.recvReply = RecvReply.failed →
        (RegisterSelf.body b t masterEp s).returned = some false ∨
          (RegisterSelf.body b t masterEp s).isThrown = true) ∧
      (confirmationRefused (newMessages s (RegisterSelf.body b t masterEp s).state) = true →
        (RegisterSelf.body b t masterEp s).returned = some false ∨
          (RegisterSelf.body b t masterEp s).isThrown = true) ∧
      (confirmationAccepted (newMessages s (RegisterSelf.body b t masterEp s).state) = true →
        t.recvAck ≠ Outcome.ok →
        (RegisterSelf.body b t masterEp s).returned = some false ∨
          (RegisterSelf.body b t masterEp s).isThrown = true) := by
  obtain ⟨sr, rr, se, sc, ra, va⟩ := t
  cases se <;>
  · simp only [RegisterSelf.body, replyError, State.send]
    repeat' split
    all_goals simp [Flow.state, Flow.returned, Flow.isThrown, newMessages, confirmationRefused,
      confirmationAccepted, SendEvent.isConfirmation]

/-- The two parts of `UnregisterSelf`, run one after the other, are `UnregisterSelf`. -/
theorem unregisterSelf_eq_parts (e : Option IException) (answer : Outcome) (s : State) :
    UnregisterSelf e answer s =
      match UnregisterSelf.begin e s with
      | some p => UnregisterSelf.finish p answer s
      | none => (false, s) := by
  unfold UnregisterSelf UnregisterSelf.begin UnregisterSelf.finish
  cases hm : s.mpServerStarted <;> cases hr : s.isRegistered <;> cases answer <;> simp

/-- The two parts of `ControlHandler`, run one after the other, are `ControlHandler`. -/
theorem controlHandler_eq_parts (type : ahType) (answer : Outcome) (stops : Bool) (s : State) :
    ControlHandler type answer stops s =
      match ControlHandler.begin stops s with
      | (some p, s1) => ControlHandler.finish p answer stops s1
      | (none, s1) => (true, s1) := by
  unfold ControlHandler ControlHandler.begin ControlHandler.finish
  rw [unregisterSelf_eq_parts]
  unfold UnregisterSelf.begin UnregisterSelf.finish
  cases hj : s.jobListenerStopped <;> cases hn : s.masterNode <;>
    cases hm : s.mpServerStarted <;> cases hr : s.isRegistered <;> cases answer <;> simp

/-- C10: starting from `isRegistered` false, for every input and every behaviour of the
transport, `isRegistered` is true at the end of `RegisterSelf` exactly when it returned true.
In particular a missing registration reply, a confirmation the layer did not accept, an
accepted confirmation whose acknowledgment is not received, and an exception raised in the
`try` block each make `RegisterSelf` return false with `isRegistered` still false. -/
theorem registerSelf_flag_iff_success (b : BuildConfig) (t : Handshake)
    (masterEp : SocketEndpoint) (s : State) (hs : s.isRegistered = false) :
    ((RegisterSelf b t masterEp s).state.isRegistered = true ↔
        (RegisterSelf b t masterEp s).result = some true) ∧
      (t.recvReply = RecvReply.failed →
        (RegisterSelf b t masterEp s).result = some false ∧
          (RegisterSelf b t masterEp s).state.isRegistered = false) ∧
      (confirmationRefused (newMessages s (RegisterSelf b t masterEp s).state) = true →
        (RegisterSelf b t masterEp s).result = some false ∧
          (RegisterSelf b t masterEp s).state.isRegistered = false) ∧
      (confirmationAccepted (newMessages s (RegisterSelf b t masterEp s).state) = true →
        t.recvAck ≠ Outcome.ok →
        (RegisterSelf b t masterEp s).result = some false ∧
          (RegisterSelf b t masterEp s).state.isRegistered = false) ∧
      ((RegisterSelf.body b t masterEp s).isThrown = true →
        (RegisterSelf b t masterEp s).result = some false ∧
          (RegisterSelf b t masterEp s).state.isRegistered = false) := by
  obtain ⟨hA, -, hB⟩ := body_frame b t masterEp s
  obtain ⟨hE, hC, hD⟩ := body_failures b t masterEp s
  unfold RegisterSelf
  generalize RegisterSelf.body b t masterEp s = f at *
  cases f <;> simp_all [Flow.state, Flow.returned, Flow.isThrown, Run.result, Run.state, newMessages]

/-- C10, witness: in the scenario with a confirmation that the layer refuses, the flag is true
exactly when the call returned true, and the call returns false with the flag still false. -/
theorem registerSelf_flag_iff_success_witness :
    scenarioStart.isRegistered = false ∧
      ((RegisterSelf (scenarioBuild false) (refusedConfirmation matchingReply) scenarioMasterEp
          scenarioStart).state.isRegistered = true ↔
        (RegisterSelf (scenarioBuild false) (refusedConfirmation matchingReply) scenarioMasterEp
          scenarioStart).result = some true) ∧
      ((RegisterSelf (scenarioBuild false) (refusedConfirmation matchingReply) scenarioMasterEp
          scenarioStart).result = some false ∧
        (RegisterSelf (scenarioBuild false) (refusedConfirmation matchingReply) scenarioMasterEp
          scenarioStart).state.isRegistered = false) :=
  ⟨rfl,
    (registerSelf_flag_iff_success (scenarioBuild false) (refusedConfirmation matchingReply)
      scenarioMasterEp scenarioStart rfl).1,
    (registerSelf_flag_iff_success (scenarioBuild false) (refusedConfirmation matchingReply)
      scenarioMasterEp scenarioStart rfl).2.2.1 (by decide)⟩

/-! ## The coordinator reference of a registered worker -/

/-- The `try` block of `RegisterSelf` never clears the coordinator reference, stores one
before it completes, and sends no deregistration message. -/
theorem body_coordinator (b : BuildConfig) (t : Handshake) (masterEp : SocketEndpoint)
    (s : State) :
    (s.masterNode ≠ none → (RegisterSelf.body b t masterEp s).state.masterNode ≠ none) ∧
      ((RegisterSelf.body b t masterEp s).completed = true →
        (RegisterSelf.body b t masterEp s).state.masterNode ≠ none) ∧
      nullDeregistrations (RegisterSelf.body b t masterEp s).state.sent =
        nullDeregistrations s.sent := by
  obtain ⟨sr, rr, se, sc, ra, va⟩ := t
  cases se <;>
  · simp only [RegisterSelf.body, replyError, State.send]
    repeat' split
    all_goals simp [Flow.state, Flow.completed, nullDeregistrations, List.countP_append,
      SendEvent.isNullDeregistration, SendEvent.isDeregistration]

/-- A call of `RegisterSelf` keeps the invariant and sends no deregistration message. -/
theorem registerSelf_coordinator (b : BuildConfig) (t : Handshake) (masterEp : SocketEndpoint)
    (s : State) (h : s.coordinatorKnown) :
    (RegisterSelf b t masterEp s).state.coordinatorKnown ∧
      nullDeregistrations (RegisterSelf b t masterEp s).state.sent =
        nullDeregistrations s.sent := by
  obtain ⟨hkeep, hdone, hlog⟩ := body_coordinator b t masterEp s
  obtain ⟨hflag, -, -⟩ := body_frame b t masterEp s
  unfold State.coordinatorKnown at h ⊢
  unfold RegisterSelf
  generalize RegisterSelf.body b t masterEp s = f at *
  cases f with
  | done s1 =>
    refine ⟨fun _ => ?_, by simpa [Flow.state, Run.state] using hlog⟩
    simpa [Run.state, Flow.state, Flow.completed] using hdone
  | ret r s1 =>
    simp only [Flow.state, Run.state] at *
    exact ⟨fun hr => hkeep (h (hflag ▸ hr)), hlog⟩
  | thrown s1 =>
    simp only [Flow.state, Run.state] at *
    exact ⟨fun hr => hkeep (h (hflag ▸ hr)), hlog⟩
  | spin s1 =>
    simp only [Flow.state, Run.state] at *
    exact ⟨fun hr => hkeep (h (hflag ▸ hr)), hlog⟩

/-- A call of `UnregisterSelf` keeps the invariant and, under the invariant, hands no
deregistration to the layer with a null coordinator. -/
theorem unregisterSelf_coordinator (e : Option IException) (answer : Outcome) (s : State)
    (h : s.coordinatorKnown) :
    (UnregisterSelf e answer s).2.coordinatorKnown ∧
      nullDeregistrations (UnregisterSelf e answer s).2.sent = nullDeregistrations s.sent := by
  unfold State.coordinatorKnown at h ⊢
  unfold UnregisterSelf
  cases hm : s.mpServerStarted <;> cases hr : s.isRegistered <;> cases answer <;>
    simp_all [State.send, nullDeregistrations, List.countP_append,
      SendEvent.isNullDeregistration, SendEvent.isDeregistration]

/-- A step of `Call` keeps the invariant and hands no deregistration to the layer with a null
coordinator. -/
theorem call_coordinator (c : Call) (s : State) (h : s.coordinatorKnown) :
    (c.step s).coordinatorKnown ∧
      nullDeregistrations (c.step s).sent = nullDeregistrations s.sent := by
  cases c with
  | unregister e answer => exact unregisterSelf_coordinator e answer s h
  | control type answer stops =>
    have hu := unregisterSelf_coordinator none answer s h
    unfold State.coordinatorKnown at h hu ⊢
    simp only [Call.step, ControlHandler, abortSlave]
    cases hj : s.jobListenerStopped <;> cases hm : s.masterNode <;> cases stops <;>
      simp_all
  | listener stopped => exact ⟨h, rfl⟩

/-- A sequence of steps of the worker process keeps the invariant and hands no deregistration
to the layer with a null coordinator. -/
theorem runActions_coordinator (b : BuildConfig) (actions : List Action) (s : State)
    (h : s.coordinatorKnown) :
    (runActions b actions s).coordinatorKnown ∧
      nullDeregistrations (runActions b actions s).sent = nullDeregistrations s.sent := by
  induction actions generalizing s with
  | nil => exact ⟨h, rfl⟩
  | cons a rest ih =>
    have hstep : (a.step b s).coordinatorKnown ∧
        nullDeregistrations (a.step b s).sent = nullDeregistrations s.sent := by
      cases a with
      | register t masterEp => exact registerSelf_coordinator b t masterEp s h
      | call c => exact call_coordinator c s h
    obtain ⟨h1, h2⟩ := ih (a.step b s) hstep.1
    exact ⟨h1, h2.trans hstep.2⟩

/-- C11: in every state reached from a state with `isRegistered` false (in particular the
initial state, where `masterNode` is null) by any sequence of `RegisterSelf`, `UnregisterSelf`
and `ControlHandler` calls and writes of the job listener to its flag, `isRegistered` true
implies that `masterNode` is non-null; and along the whole sequence, calls of `UnregisterSelf`
by `main` without a check of `masterNode` included, no deregistration message is handed to the
transport with a null coordinator. -/
theorem registered_implies_coordinator (b : BuildConfig) (actions : List Action) (s0 : State)
    (hreg : s0.isRegistered = false) :
    ((runActions b actions s0).isRegistered = true →
        (runActions b actions s0).masterNode ≠ none) ∧
      nullDeregistrations (runActions b actions s0).sent = nullDeregistrations s0.sent := by
  have h0 : s0.coordinatorKnown := by
    intro h
    rw [hreg] at h
    exact absurd h (by decide)
  exact runActions_coordinator b actions s0 h0

/-- C11, witness: from the state in which `main` calls `RegisterSelf`, a failed registration, the registration
of the scenario, a start of the job listener, an interrupt and the call made by `main` with a
reason lead to states that satisfy the invariant, and no deregistration goes to a null
coordinator. -/
theorem registered_implies_coordinator_witness :
    ((runActions (scenarioBuild false) scenarioLifetime scenarioStart).isRegistered
        = true →
      (runActions (scenarioBuild false) scenarioLifetime scenarioStart).masterNode
        ≠ none) ∧
      nullDeregistrations
          (runActions (scenarioBuild false) scenarioLifetime scenarioStart).sent =
        nullDeregistrations scenarioStart.sent :=
  registered_implies_coordinator (scenarioBuild false) scenarioLifetime
    scenarioStart rfl

end ThorSlave
